import Mathlib

/-!
Verification of the clustering module of SelfCC (cifar10/clustering_module_cifar10.py).

The file shallowly embeds the forward computations of the repository:

* the fuzzy-membership head `clustering_model.forward` (source lines 172-178),
  modelled value-exactly over the reals extended with IEEE special values
  (`FV`), with torch broadcasting modelled on the shapes that actually occur;
* the constructor `clustering_model.__init__` (lines 160-166);
* the backbone constructor `ResNet.__init__` (lines 9-70) and shape semantics
  of `ResNet._forward_impl` (lines 113-126);
* the selector `get_resnet_cifar` (lines 132-145);
* the `encoder` wrapper (lines 148-156), whose `F.normalize(f, dim=1)` has the
  documented torch semantics `v / max(norm(v), eps)` with `eps = 1e-12`.

Tensors are represented as total functions from natural indices to values,
with shapes carried separately; entries outside the shape are never read.
-/

/-- IEEE-754-style extended value: a finite real, positive infinity, or NaN.
The forward pass of the clustering head only ever produces nonnegative finite
values, `+inf` and NaN, so a negative-infinity constructor is not needed:
every operation below is applied only to nonnegative or special operands. -/
inductive FV where
  | r (x : ℝ)
  | inf
  | nan

/-- IEEE addition on nonnegative extended values: NaN absorbs, then infinity
absorbs, finite values add. -/
def FV.add : FV → FV → FV
  | .nan, _ => .nan
  | _, .nan => .nan
  | .inf, _ => .inf
  | _, .inf => .inf
  | .r x, .r y => .r (x + y)

/-- IEEE multiplication restricted to the nonnegative operands produced by the
head (the only non-finite multiplier applied in the source is the constant 1
from `torch.ones`): NaN absorbs, `inf * 0 = NaN`, `inf * positive = inf`. -/
noncomputable def FV.mul : FV → FV → FV
  | .nan, _ => .nan
  | _, .nan => .nan
  | .inf, .inf => .inf
  | .inf, .r x => if x = 0 then .nan else .inf
  | .r x, .inf => if x = 0 then .nan else .inf
  | .r x, .r y => .r (x * y)

/-- IEEE division restricted to the nonnegative operands produced by the head:
NaN absorbs, `inf / inf = NaN`, `inf / finite = inf`, `finite / inf = 0`,
`finite / 0` is NaN for a zero and infinite for a positive numerator. -/
noncomputable def FV.div : FV → FV → FV
  | .nan, _ => .nan
  | _, .nan => .nan
  | .inf, .inf => .nan
  | .inf, .r _ => .inf
  | .r _, .inf => .r 0
  | .r x, .r y => if y = 0 then (if x = 0 then .nan else .inf) else .r (x / y)

/-- IEEE power of a nonnegative base (torch `**` on a distance tensor): the
single point where the real power and the IEEE power differ on this domain is
`0 ** e` with `e < 0`, which IEEE maps to `+inf`; elsewhere it is `Real.rpow`
(in particular `0 ** 0 = 1` and `0 ** e = 0` for `e > 0`, matching IEEE). -/
noncomputable def ieeePow (x e : ℝ) : FV :=
  if x = 0 ∧ e < 0 then FV.inf else FV.r (x ^ e)

/-- Sum of the first `n` entries of a stream of extended values, as computed by
`torch.sum` along a dimension of size `n`. -/
def fvSum : ℕ → (ℕ → FV) → FV
  | 0, _ => FV.r 0
  | n + 1, f => (fvSum n f).add (f n)

/-- Broadcast index map of torch: an index into a dimension of size 1 reads
position 0, any other dimension is read at the index itself. -/
def bIdx (n b : ℕ) : ℕ := if n = 1 then 0 else b

/-- Line 174, inner part: entry `(a, i)` of
`torch.sum(torch.square(torch.unsqueeze(latent, dim=1) - clustering_layer), dim=2)`
after the trailing `.t()`.  `latent` has shape `(N, D)`, the prototype
parameter `clustering_layer` has shape `(512, C)`; the subtraction broadcasts
`(N, 1, D)` against `(512, C)`, so position `b` of the summed dimension reads
`latent i (bIdx D b)` and `proto a (bIdx C b)`. -/
noncomputable def sqdist_code (D C : ℕ) (latent proto : ℕ → ℕ → ℝ) (a i : ℕ) : ℝ :=
  ∑ b in Finset.range (max D C), (latent i (bIdx D b) - proto a (bIdx C b)) ^ 2

/-- Lines 174-175: entry `(a, i)` of `dis` after
`dis = torch.sqrt(...).t()` and `dis = dis ** (-2. / (fuzzifier - 1.))`. -/
noncomputable def dis_code (D C : ℕ) (latent proto : ℕ → ℕ → ℝ) (m : ℝ) (a i : ℕ) : FV :=
  ieeePow (Real.sqrt (sqdist_code D C latent proto a i)) (-2 / (m - 1))

/-- Line 176: entry `i` of `c = torch.unsqueeze(torch.sum(dis, dim=0), dim=0)`:
the sum runs over dimension 0 of `dis`, which has size 512 (the row count of
the prototype parameter, regardless of `class_number`). -/
noncomputable def c_code (D C : ℕ) (latent proto : ℕ → ℕ → ℝ) (m : ℝ) (i : ℕ) : FV :=
  fvSum 512 (fun a => dis_code D C latent proto m a i)

/-- Line 177: entry `(i, a)` of
`u_matrix = (dis / torch.mul(torch.ones(size=(class_number, 1)).to(device), c)).t()`.
`torch.ones(C, 1) * c` broadcasts to shape `(C, N)` with every row equal to
`c`, so the denominator of entry `(a, i)` is `1 * c i` for every `a`. -/
noncomputable def u_code (D C : ℕ) (latent proto : ℕ → ℕ → ℝ) (m : ℝ) (i a : ℕ) : FV :=
  FV.div (dis_code D C latent proto m a i) (FV.mul (FV.r 1) (c_code D C latent proto m i))

/-- Lines 172-178, `clustering_model.forward` on a latent batch of shape
`(N, D)` with prototype parameter of shape `(512, C)` and fuzzifier `m`.
Execution order of the source:
line 174 broadcasts `(N, 1, D)` against `(512, C)`, raising a RuntimeError
unless the trailing dimensions `D` and `C` are broadcast-compatible;
line 175 evaluates the Python float expression `-2. / (fuzzifier - 1.)`,
raising ZeroDivisionError when `fuzzifier = 1`;
line 177 divides the `(512, N)` tensor `dis` by the `(C, N)` tensor
`ones(C, 1) * c`, raising a RuntimeError unless `C` broadcasts against 512. -/
noncomputable def clustering_forward (N D C : ℕ) (latent proto : ℕ → ℕ → ℝ) (m : ℝ) :
    Except String (ℕ → ℕ → FV) :=
  if D = C ∨ D = 1 ∨ C = 1 then
    if m - 1 = 0 then
      Except.error "ZeroDivisionError: float division by zero"
    else if 512 = C ∨ C = 1 then
      Except.ok (u_code D C latent proto m)
    else
      Except.error "RuntimeError: tensors are not broadcastable"
  else
    Except.error "RuntimeError: tensors are not broadcastable"

/-- State stored by `clustering_model.__init__` (lines 160-166): the feature
extractor, the fuzzifier, the class number and the device, kept verbatim. The
prototype parameter `clustering_layer` is allocated uninitialized by
`torch.Tensor(512, class_number)` and is not part of the constructed state
here; `forward` above takes it as an argument. -/
structure clustering_model_state (I : Type) where
  feat_extractor : I → ℕ → ℕ → ℝ
  fuzzifier : ℝ
  class_number : ℤ
  device : ℕ

/-- Lines 160-166, `clustering_model.__init__`: the constructor performs no
validation of its own and stores its arguments.  The only construction-time
failure is incidental: line 163 allocates `torch.Tensor(512, class_number)`,
and torch raises a RuntimeError when asked for a tensor with a negative
dimension; `class_number = 0` allocates an empty `(512, 0)` tensor and
succeeds, and the fuzzifier is never inspected. -/
def clustering_model_init (I : Type) (fe : I → ℕ → ℕ → ℝ) (m : ℝ) (c : ℤ) (dev : ℕ) :
    Except String (clustering_model_state I) :=
  if c < 0 then
    Except.error "RuntimeError: Trying to create tensor with negative dimension"
  else
    Except.ok { feat_extractor := fe, fuzzifier := m, class_number := c, device := dev }

/- ### Helper lemmas on extended values -/

/-- Adding two non-NaN extended values cannot produce NaN. -/
theorem FV.add_ne_nan {a b : FV} (ha : a ≠ FV.nan) (hb : b ≠ FV.nan) :
    a.add b ≠ FV.nan := by
  cases a <;> cases b <;> simp_all [FV.add]

/-- Adding infinity to a non-NaN extended value gives infinity. -/
theorem FV.add_inf_of_ne_nan {a : FV} (ha : a ≠ FV.nan) : a.add FV.inf = FV.inf := by
  cases a <;> simp_all [FV.add]

/-- Adding a non-NaN extended value to infinity gives infinity. -/
theorem FV.inf_add_of_ne_nan {b : FV} (hb : b ≠ FV.nan) : FV.inf.add b = FV.inf := by
  cases b <;> simp_all [FV.add]

/-- The IEEE power never produces NaN on this domain. -/
theorem ieeePow_ne_nan (x e : ℝ) : ieeePow x e ≠ FV.nan := by
  unfold ieeePow
  split <;> nofun

/-- A finite sum of non-NaN extended values is not NaN. -/
theorem fvSum_ne_nan (n : ℕ) (f : ℕ → FV) (h : ∀ k, k < n → f k ≠ FV.nan) :
    fvSum n f ≠ FV.nan := by
  induction n with
  | zero => nofun
  | succ n ih =>
      exact FV.add_ne_nan (ih fun k hk => h k (Nat.lt_succ_of_lt hk))
        (h n (Nat.lt_succ_self n))

/-- A finite sum of non-NaN extended values containing an infinity is
infinity. -/
theorem fvSum_eq_inf (n : ℕ) (f : ℕ → FV) (hnan : ∀ k, k < n → f k ≠ FV.nan)
    (h : ∃ k, k < n ∧ f k = FV.inf) : fvSum n f = FV.inf := by
  induction n with
  | zero =>
      obtain ⟨k, hk, _⟩ := h
      exact absurd hk (Nat.not_lt_zero k)
  | succ n ih =>
      obtain ⟨k, hk, hkinf⟩ := h
      rcases Nat.lt_succ_iff_lt_or_eq.mp hk with hlt | rfl
      · have hsum := ih (fun k hk => hnan k (Nat.lt_succ_of_lt hk)) ⟨k, hlt, hkinf⟩
        show (fvSum n f).add (f n) = FV.inf
        rw [hsum]
        exact FV.inf_add_of_ne_nan (hnan n (Nat.lt_succ_self n))
      · show (fvSum k f).add (f k) = FV.inf
        rw [hkinf]
        exact FV.add_inf_of_ne_nan
          (fvSum_ne_nan k f fun j hj => hnan j (Nat.lt_succ_of_lt hj))

/- ### Helper lemmas on the head's computation -/

/-- The summed squares of line 174 are nonnegative. -/
theorem sqdist_code_nonneg (D C : ℕ) (latent proto : ℕ → ℕ → ℝ) (a i : ℕ) :
    0 ≤ sqdist_code D C latent proto a i :=
  Finset.sum_nonneg fun b _ => sq_nonneg _

/-- For a fuzzifier above 1 the exponent of line 175 is negative. -/
theorem fuzzifier_exponent_neg {m : ℝ} (hm : 1 < m) : (-2 : ℝ) / (m - 1) < 0 :=
  div_neg_of_neg_of_pos (by norm_num) (by linarith)

/-- Entry of `dis` at a zero squared distance: `0 ** negative` is `+inf`. -/
theorem dis_code_eq_inf {D C : ℕ} {latent proto : ℕ → ℕ → ℝ} {m : ℝ} (hm : 1 < m)
    {a i : ℕ} (h0 : sqdist_code D C latent proto a i = 0) :
    dis_code D C latent proto m a i = FV.inf := by
  unfold dis_code
  rw [h0, Real.sqrt_zero]
  unfold ieeePow
  rw [if_pos ⟨rfl, fuzzifier_exponent_neg hm⟩]

/-- Entry of `dis` at a positive squared distance is a finite value. -/
theorem dis_code_eq_r {D C : ℕ} {latent proto : ℕ → ℕ → ℝ} {m : ℝ}
    {a i : ℕ} (h0 : sqdist_code D C latent proto a i ≠ 0) :
    dis_code D C latent proto m a i =
      FV.r (Real.sqrt (sqdist_code D C latent proto a i) ^ ((-2 : ℝ) / (m - 1))) := by
  have hpos : 0 < sqdist_code D C latent proto a i :=
    lt_of_le_of_ne (sqdist_code_nonneg D C latent proto a i) (Ne.symm h0)
  have hs : Real.sqrt (sqdist_code D C latent proto a i) ≠ 0 :=
    ne_of_gt (Real.sqrt_pos.mpr hpos)
  unfold dis_code ieeePow
  rw [if_neg]
  intro hc
  exact hs hc.1

/-- When some squared distance of row `i` vanishes (and the fuzzifier exceeds
1), the normalization constant of line 176 is infinite. -/
theorem c_code_eq_inf {D C : ℕ} {latent proto : ℕ → ℕ → ℝ} {m : ℝ} (hm : 1 < m)
    {i a0 : ℕ} (ha0 : a0 < 512) (h0 : sqdist_code D C latent proto a0 i = 0) :
    c_code D C latent proto m i = FV.inf := by
  unfold c_code
  exact fvSum_eq_inf 512 _ (fun k _ => ieeePow_ne_nan _ _)
    ⟨a0, ha0, dis_code_eq_inf hm h0⟩

/-- Membership entry at a vanishing squared distance: `inf / inf` is NaN. -/
theorem u_code_nan_of_sqdist_zero {D C : ℕ} {latent proto : ℕ → ℕ → ℝ} {m : ℝ}
    (hm : 1 < m) {i a : ℕ} (ha : a < 512)
    (h0 : sqdist_code D C latent proto a i = 0) :
    u_code D C latent proto m i a = FV.nan := by
  unfold u_code
  rw [c_code_eq_inf hm ha h0, dis_code_eq_inf hm h0]
  simp [FV.mul, FV.div]

/-- Membership entry at a positive squared distance when some other squared
distance of the same row vanishes: `finite / inf` is `0`. -/
theorem u_code_zero_of_sqdist_ne_zero {D C : ℕ} {latent proto : ℕ → ℕ → ℝ} {m : ℝ}
    (hm : 1 < m) {i a0 : ℕ} (ha0 : a0 < 512)
    (h00 : sqdist_code D C latent proto a0 i = 0)
    {a : ℕ} (ha : sqdist_code D C latent proto a i ≠ 0) :
    u_code D C latent proto m i a = FV.r 0 := by
  unfold u_code
  rw [c_code_eq_inf hm ha0 h00, dis_code_eq_r ha]
  simp [FV.mul, FV.div]

/-- For a square prototype (`class_number = 512` matching the latent width) and
a fuzzifier other than 1, the forward pass succeeds and returns `u_code`. -/
theorem clustering_forward_512 (N : ℕ) (latent proto : ℕ → ℕ → ℝ) {m : ℝ}
    (hm : m - 1 ≠ 0) :
    clustering_forward N 512 512 latent proto m = Except.ok (u_code 512 512 latent proto m) := by
  unfold clustering_forward
  rw [if_pos (Or.inl rfl), if_neg hm, if_pos (Or.inl rfl)]

/- ### Claims C1-C5 -/

/-- C1 (code_bug evidence): with the repository's own configuration for
CIFAR-10 (`class_number = 10`, 512-dimensional embeddings), the forward pass
does not compute the fuzzy-c-means membership matrix at all: line 174
broadcasts the `(N, 1, 512)` latent against the untransposed `(512, 10)`
prototype parameter and raises a RuntimeError. -/
theorem C1_forward_breaks_at_ten_clusters :
    clustering_forward 1 512 10 (fun _ _ => 0) (fun _ _ => 0) 2 =
      Except.error "RuntimeError: tensors are not broadcastable" := by
  unfold clustering_forward
  rw [if_neg (by norm_num)]

/-- C2 (code_bug evidence): the spec's scenario (batch of 4, `cluster_count =
10`, `fuzzifier = 2`) raises the line-174 broadcast RuntimeError instead of
returning a `(4, 10)` row-stochastic membership matrix. -/
theorem C2_scenario_breaks :
    clustering_forward 4 512 10 (fun _ _ => 1) (fun _ _ => 1) 2 =
      Except.error "RuntimeError: tensors are not broadcastable" := by
  unfold clustering_forward
  rw [if_neg (by norm_num)]

/-- C3 (confirmed): for every `class_number` that is neither 1 nor 512 and
every latent batch of width 512, `clustering_model.forward` raises a
broadcasting error rather than returning a membership matrix, because the
`(N, 1, 512)` unsqueezed embedding is subtracted from the untransposed
`(512, class_number)` prototype parameter. -/
theorem C3_broadcast_error (N C : ℕ) (latent proto : ℕ → ℕ → ℝ) (m : ℝ)
    (h1 : C ≠ 1) (h512 : C ≠ 512) :
    clustering_forward N 512 C latent proto m =
      Except.error "RuntimeError: tensors are not broadcastable" := by
  unfold clustering_forward
  rw [if_neg]
  push_neg
  refine ⟨fun h => h512 h.symm, by norm_num, h1⟩

/-- Witness for C3 at `class_number = 10`. -/
theorem C3_broadcast_error_witness :
    clustering_forward 2 512 10 (fun _ _ => 3) (fun _ _ => 5) (7 / 2) =
      Except.error "RuntimeError: tensors are not broadcastable" :=
  C3_broadcast_error 2 10 _ _ _ (by norm_num) (by norm_num)

/-- C4 (counterexample): on the one multi-cluster configuration the forward
pass can execute (`class_number = 512`), an embedding exactly equal to a
prototype column (here: all-zero latent and all-zero prototype) makes the
forward pass return NaN membership entries — not the full membership 1 the
claim asserts, and not any finite value. -/
theorem C4_counterexample :
    clustering_forward 1 512 512 (fun _ _ => 0) (fun _ _ => 0) 2 =
        Except.ok (u_code 512 512 (fun _ _ => 0) (fun _ _ => 0) 2) ∧
      u_code 512 512 (fun _ _ => 0) (fun _ _ => 0) 2 0 0 = FV.nan ∧
      FV.nan ≠ FV.r 1 ∧ FV.nan ≠ FV.r 0 := by
  refine ⟨clustering_forward_512 1 _ _ (by norm_num),
    u_code_nan_of_sqdist_zero (by norm_num) (by norm_num) ?_, nofun, nofun⟩
  simp [sqdist_code]

/-- C4 (amended): `clustering_model.forward` does not handle the zero-distance
degeneracy.  When the squared distance of image `i` to prototype row `a0`
vanishes and the fuzzifier exceeds 1, the forward pass succeeds (for the
broadcast-compatible width 512) and propagates non-finite values: the
membership entry of every zero-distance cluster is NaN (`inf / inf`), and the
entry of every positive-distance cluster is 0 (`finite / inf`). -/
theorem C4_nan_propagation (N : ℕ) (latent proto : ℕ → ℕ → ℝ) (m : ℝ) (hm : 1 < m)
    (i a0 : ℕ) (ha0 : a0 < 512) (h0 : sqdist_code 512 512 latent proto a0 i = 0) :
    clustering_forward N 512 512 latent proto m =
        Except.ok (u_code 512 512 latent proto m) ∧
      u_code 512 512 latent proto m i a0 = FV.nan ∧
      ∀ a, sqdist_code 512 512 latent proto a i ≠ 0 →
        u_code 512 512 latent proto m i a = FV.r 0 :=
  ⟨clustering_forward_512 N latent proto (by intro h; linarith [sub_eq_zero.mp h]),
    u_code_nan_of_sqdist_zero hm ha0 h0,
    fun _ ha => u_code_zero_of_sqdist_ne_zero hm ha0 h0 ha⟩

/-- Witness for C4's amended theorem on the all-zero instance. -/
theorem C4_nan_propagation_witness :
    u_code 512 512 (fun _ _ => 0) (fun _ _ => 0) 2 0 0 = FV.nan :=
  (C4_nan_propagation 1 (fun _ _ => 0) (fun _ _ => 0) 2 (by norm_num) 0 0
    (by norm_num) (by simp [sqdist_code])).2.1

/-- C5 (counterexample): constructing a `clustering_model` with fuzzifier
`1/2 ≤ 1` and class number `0 ≤ 0` (both disjuncts of the claim's error
condition) succeeds without any error — the constructor validates nothing of
its own, contradicting the claim that a configuration error is raised at
construction time. -/
theorem C5_counterexample :
    ((1 : ℝ) / 2 ≤ 1 ∧ (0 : ℤ) ≤ 0) ∧
      clustering_model_init Unit (fun _ _ _ => 0) (1 / 2) 0 0 =
        Except.ok { feat_extractor := fun _ _ _ => 0, fuzzifier := 1 / 2,
                    class_number := 0, device := 0 } :=
  ⟨⟨by norm_num, le_refl 0⟩, by
    unfold clustering_model_init
    rw [if_neg (by norm_num : ¬(0 : ℤ) < 0)]⟩

/-- C5 (amended): `clustering_model.__init__` performs no validation of its
own: every fuzzifier (including values at most 1) and every nonnegative class
number — in particular the non-positive `class_number = 0` — is accepted and
stored verbatim, so those invalid configurations surface only at forward-pass
time.  The single construction-time failure is the incidental RuntimeError
from the `torch.Tensor(512, class_number)` allocation of line 163 when the
class number is negative. -/
theorem C5_no_validation (I : Type) (fe : I → ℕ → ℕ → ℝ) (m : ℝ) (c : ℤ) (dev : ℕ) :
    (0 ≤ c → clustering_model_init I fe m c dev =
      Except.ok { feat_extractor := fe, fuzzifier := m, class_number := c, device := dev }) ∧
    (c < 0 → clustering_model_init I fe m c dev =
      Except.error "RuntimeError: Trying to create tensor with negative dimension") := by
  unfold clustering_model_init
  constructor
  · intro h0
    rw [if_neg (not_lt.mpr h0)]
  · intro hneg
    rw [if_pos hneg]

/-- Witness for C5's amended theorem: fuzzifier 1/2 with class number 0
constructs successfully; class number -3 raises the torch RuntimeError. -/
theorem C5_no_validation_witness :
    clustering_model_init Unit (fun _ _ _ => 0) (1 / 2) 0 0 =
        Except.ok { feat_extractor := fun _ _ _ => 0, fuzzifier := 1 / 2,
                    class_number := 0, device := 0 } ∧
      clustering_model_init Unit (fun _ _ _ => 0) 2 (-3) 1 =
        Except.error "RuntimeError: Trying to create tensor with negative dimension" :=
  ⟨(C5_no_validation Unit (fun _ _ _ => 0) (1 / 2) 0 0).1 (by norm_num),
    (C5_no_validation Unit (fun _ _ _ => 0) 2 (-3) 1).2 (by norm_num)⟩

/- ### Backbone: ResNet construction and forward shape semantics -/

/-- Expansion factor of torchvision's `BasicBlock`. -/
def basicBlockExpansion : ℕ := 1

/-- Expansion factor of torchvision's `Bottleneck`. -/
def bottleneckExpansion : ℕ := 4

/-- Per-stage data computed by one `_make_layer` call (lines 72-111): the
input channel count the stage was wired for, its base plane count and block
count, the spatial stride actually used by the first block (1 when the stride
was replaced by dilation), and the dilations of the first and the remaining
blocks. -/
structure StageSpec where
  inplanes : ℕ
  planes : ℕ
  blocks : ℕ
  stride : ℕ
  d_first : ℕ
  d_rest : ℕ

/-- One `_make_layer` call (lines 72-111) at construction state
`(self.inplanes, self.dilation)`: records `previous_dilation`, multiplies the
dilation by the stride and forces stride 1 when `dilate` is set, and advances
`self.inplanes` to `planes * expansion`. -/
def makeLayerSpec (expansion : ℕ) (state : ℕ × ℕ) (planes blocks stride : ℕ)
    (dilate : Bool) : StageSpec × (ℕ × ℕ) :=
  let s := if dilate then 1 else stride
  let d2 := if dilate then state.2 * stride else state.2
  ({ inplanes := state.1, planes := planes, blocks := blocks, stride := s,
     d_first := state.2, d_rest := d2 }, (planes * expansion, d2))

/-- Construction state of a backbone built by `ResNet.__init__`. -/
structure ResNetModel where
  expansion : ℕ
  in_channel : ℕ
  stages : List StageSpec
  rep_dim : ℕ

/-- The four `_make_layer` calls of lines 43-52, chained through
`(self.inplanes, self.dilation)` starting from `(64, 1)`: planes 64, 128,
256, 512, stride 1 on the first stage and stride 2 on the others subject to
the dilation flags. -/
def resnetStages (expansion n1 n2 n3 n4 : ℕ) (rswd : List Bool) : List StageSpec :=
  let s1 := makeLayerSpec expansion (64, 1) 64 n1 1 false
  let s2 := makeLayerSpec expansion s1.2 128 n2 2 (rswd.getD 0 false)
  let s3 := makeLayerSpec expansion s2.2 256 n3 2 (rswd.getD 1 false)
  let s4 := makeLayerSpec expansion s3.2 512 n4 2 (rswd.getD 2 false)
  [s1.1, s2.1, s3.1, s4.1]

/-- The two torchvision residual block classes the source imports (line 2). -/
inductive BlockVariant where
  | basic
  | bottleneck

/-- The `expansion` class attribute of the block: 1 for `BasicBlock`, 4 for
`Bottleneck`. -/
def BlockVariant.expansion : BlockVariant → ℕ
  | .basic => basicBlockExpansion
  | .bottleneck => bottleneckExpansion

/-- Construction of one residual block at a given dilation:
`BasicBlock.__init__` raises NotImplementedError for any dilation above 1,
`Bottleneck.__init__` accepts every dilation.  (The source always uses the
default `groups = 1` and `width_per_group = 64`, so the corresponding
BasicBlock ValueError cannot trigger.) -/
def blockInitOk (v : BlockVariant) (dilation : ℕ) : Except String Unit :=
  match v with
  | .basic =>
      if 1 < dilation then
        Except.error "NotImplementedError: Dilation > 1 not supported in BasicBlock"
      else Except.ok ()
  | .bottleneck => Except.ok ()

/-- Block construction performed by one `_make_layer` call: the first block
is built at the previous dilation (line 86), the remaining `blocks - 1` at
the updated dilation (lines 99-109); they exist only when the requested count
is at least 2 and all share one dilation, so one check suffices. -/
def makeLayerOk (v : BlockVariant) (sp : StageSpec) : Except String Unit :=
  match blockInitOk v sp.d_first with
  | Except.error e => Except.error e
  | Except.ok _ =>
      if 2 ≤ sp.blocks then blockInitOk v sp.d_rest else Except.ok ()

/-- Block construction across the four `_make_layer` calls, in order:
the first raising stage aborts the constructor. -/
def checkStages (v : BlockVariant) : List StageSpec → Except String Unit
  | [] => Except.ok ()
  | sp :: rest =>
      match makeLayerOk v sp with
      | Except.error e => Except.error e
      | Except.ok _ => checkStages v rest

/-- Lines 9-70, `ResNet.__init__`: a missing dilation-flag list defaults to
`[False, False, False]` (lines 27-30); a flag list whose length is not 3
raises a ValueError (lines 31-35) before `conv1` or any stage is built
(lines 38-54), so in this model the error branch allocates nothing.  The four
stages are then wired by the `_make_layer` calls of lines 43-52 with planes
64, 128, 256, 512, stride 2 on stages 2-4 subject to the dilation flags;
building their blocks raises NotImplementedError when a BasicBlock receives a
dilation above 1.  `rep_dim` is set to `512 * block.expansion` (line 54).  A
`layers` list shorter than 4 entries would raise an IndexError at
lines 43-51. -/
def ResNet_init (block : BlockVariant) (layers : List ℕ) (in_channel : ℕ)
    (replace_stride_with_dilation : Option (List Bool)) : Except String ResNetModel :=
  let rswd := replace_stride_with_dilation.getD [false, false, false]
  if rswd.length ≠ 3 then
    Except.error "replace_stride_with_dilation should be None or a 3-element tuple"
  else
    match layers with
    | n1 :: n2 :: n3 :: n4 :: _ =>
        match checkStages block (resnetStages block.expansion n1 n2 n3 n4 rswd) with
        | Except.error e => Except.error e
        | Except.ok _ =>
            Except.ok { expansion := block.expansion, in_channel := in_channel,
                        stages := resnetStages block.expansion n1 n2 n3 n4 rswd,
                        rep_dim := 512 * block.expansion }
    | _ => Except.error "IndexError: list index out of range"

/-- Lines 132-145, `get_resnet_cifar`: the three backbone variants are built
eagerly and selected from a dictionary; an unknown name raises a KeyError
whose message names the offending key. -/
def get_resnet_cifar (name : String) : Except String ResNetModel :=
  if name = "ResNet18" then ResNet_init BlockVariant.basic [2, 2, 2, 2] 3 none
  else if name = "ResNet34" then ResNet_init BlockVariant.basic [3, 4, 6, 3] 3 none
  else if name = "ResNet50" then ResNet_init BlockVariant.bottleneck [3, 4, 6, 3] 3 none
  else Except.error (name ++ " is not a valid ResNet version")

/-- Output size of a torch `Conv2d` along one spatial dimension with kernel
`k`, stride `s`, padding `p` and dilation `d`; `none` when torch would raise
because the computed output size is not positive. -/
def convOutDim (h k s p d : ℕ) : Option ℕ :=
  if d * (k - 1) + 1 ≤ h + 2 * p then some ((h + 2 * p - (d * (k - 1) + 1)) / s + 1)
  else none

/-- Spatial transform of one residual block along one dimension: the only
size-changing convolution of either block variant (and of the 1x1 downsample
shortcut) is a 3x3 convolution with padding equal to its dilation and the
block's stride, so both paths map size `h` to `(h - 1) / s + 1`. -/
def blockSpatial (s d h : ℕ) : Option ℕ := convOutDim h 3 s d d

/-- The remaining blocks of a stage, each at stride 1. -/
def iterBlocks : ℕ → (ℕ → Option ℕ) → ℕ → Option ℕ
  | 0, _, h => some h
  | n + 1, f, h => (f h).bind (iterBlocks n f)

/-- Spatial transform of one stage: the first block runs at the stage stride
and previous dilation, the remaining `blocks - 1` run at stride 1 and the
updated dilation.  `_make_layer` always appends the first block (line 86),
also when the requested count is 0. -/
def stageSpatial (nb s d1 d2 h : ℕ) : Option ℕ :=
  (blockSpatial s d1 h).bind (iterBlocks (nb - 1) (blockSpatial 1 d2))

/-- Channel-and-spatial transform of one stage: the stage consumes the channel
count its first convolution was wired for and produces `planes * expansion`
channels. -/
def stageShape (expansion : ℕ) (sp : StageSpec) (s : ℕ × ℕ × ℕ) : Option (ℕ × ℕ × ℕ) :=
  if s.1 = sp.inplanes then do
    let h ← stageSpatial sp.blocks sp.stride sp.d_first sp.d_rest s.2.1
    let w ← stageSpatial sp.blocks sp.stride sp.d_first sp.d_rest s.2.2
    some (sp.planes * expansion, h, w)
  else none

/-- Shape semantics of `ResNet._forward_impl` (lines 113-126) on an input
batch of shape `(N, c, h, w)`: the 3x3 stride-1 padding-1 stem (lines 38-40,
115) requires `c` input channels and keeps the spatial size, the four stages
run in order (lines 119-122), `AdaptiveAvgPool2d((1, 1))` (line 124) needs a
nonempty spatial extent, and `torch.flatten(x, 1)` (line 125) returns a
`(N, channels)` batch. -/
def resnet_forward_shape (M : ResNetModel) (N c h w : ℕ) : Option (ℕ × ℕ) :=
  if c = M.in_channel then do
    let h0 ← convOutDim h 3 1 1 1
    let w0 ← convOutDim w 3 1 1 1
    let fin ← M.stages.foldlM (fun s sp => stageShape M.expansion sp s) (64, h0, w0)
    if 1 ≤ fin.2.1 ∧ 1 ≤ fin.2.2 then some (N, fin.1) else none
  else none

/- ### Helper lemmas on the backbone shape semantics -/

/-- A 3x3 convolution with padding equal to its dilation maps any positive
size `h` to `(h - 1) / s + 1`. -/
theorem convOutDim_3x3 (s d h : ℕ) (hh : 1 ≤ h) :
    convOutDim h 3 s d d = some ((h - 1) / s + 1) := by
  unfold convOutDim
  rw [if_pos (by omega)]
  have : h + 2 * d - (d * (3 - 1) + 1) = h - 1 := by omega
  rw [this]

/-- Stride-1 blocks preserve any positive spatial size. -/
theorem iterBlocks_stride_one (n d h : ℕ) (hh : 1 ≤ h) :
    iterBlocks n (blockSpatial 1 d) h = some h := by
  induction n with
  | zero => rfl
  | succ n ih =>
      show (blockSpatial 1 d h).bind (iterBlocks n (blockSpatial 1 d)) = some h
      rw [blockSpatial, convOutDim_3x3 1 d h hh]
      have : (h - 1) / 1 + 1 = h := by omega
      rw [this]
      exact ih

/-- A whole stage maps a positive spatial size `h` to `(h - 1) / s + 1`. -/
theorem stageSpatial_eq (nb s d1 d2 h : ℕ) (hh : 1 ≤ h) :
    stageSpatial nb s d1 d2 h = some ((h - 1) / s + 1) := by
  unfold stageSpatial
  rw [blockSpatial, convOutDim_3x3 s d1 h hh]
  exact iterBlocks_stride_one (nb - 1) d2 _ (Nat.le_add_left 1 _)

/-- A whole stage on matching channels and positive spatial sizes. -/
theorem stageShape_eq (expansion : ℕ) (sp : StageSpec) (h w : ℕ)
    (hh : 1 ≤ h) (hw : 1 ≤ w) :
    stageShape expansion sp (sp.inplanes, h, w) =
      some (sp.planes * expansion, (h - 1) / sp.stride + 1, (w - 1) / sp.stride + 1) := by
  unfold stageShape
  rw [if_pos rfl]
  show (stageSpatial sp.blocks sp.stride sp.d_first sp.d_rest h).bind _ = _
  rw [stageSpatial_eq _ _ _ _ _ hh]
  show (stageSpatial sp.blocks sp.stride sp.d_first sp.d_rest w).bind _ = _
  rw [stageSpatial_eq _ _ _ _ _ hw]
  rfl

/- ### Claims C6-C8 -/

/-- Bottleneck accepts every dilation. -/
theorem blockInitOk_bottleneck (d : ℕ) :
    blockInitOk BlockVariant.bottleneck d = Except.ok () := rfl

/-- Either block variant accepts dilation 1. -/
theorem blockInitOk_one (v : BlockVariant) : blockInitOk v 1 = Except.ok () := by
  cases v <;> rfl

/-- A stage whose first and remaining dilations are both accepted builds. -/
theorem makeLayerOk_of_ok (v : BlockVariant) (sp : StageSpec)
    (h1 : blockInitOk v sp.d_first = Except.ok ())
    (h2 : blockInitOk v sp.d_rest = Except.ok ()) :
    makeLayerOk v sp = Except.ok () := by
  unfold makeLayerOk
  rw [h1]
  show (if 2 ≤ sp.blocks then blockInitOk v sp.d_rest else Except.ok ()) = Except.ok ()
  split
  · exact h2
  · rfl

/-- A stage list all of whose stages build passes the construction check. -/
theorem checkStages_of_ok (v : BlockVariant) (l : List StageSpec)
    (h : ∀ sp ∈ l, makeLayerOk v sp = Except.ok ()) :
    checkStages v l = Except.ok () := by
  induction l with
  | nil => rfl
  | cons sp rest ih =>
      unfold checkStages
      rw [h sp (List.mem_cons_self sp rest)]
      exact ih fun sp2 h2 => h sp2 (List.mem_cons_of_mem sp h2)

/-- With Bottleneck blocks every stage list builds. -/
theorem checkStages_bottleneck (l : List StageSpec) :
    checkStages BlockVariant.bottleneck l = Except.ok () :=
  checkStages_of_ok _ l fun sp _ =>
    makeLayerOk_of_ok _ sp (blockInitOk_bottleneck _) (blockInitOk_bottleneck _)

/-- With the all-false dilation-flag list every dilation stays 1, so either
block variant builds all four stages. -/
theorem checkStages_no_dilation (v : BlockVariant) (expansion n1 n2 n3 n4 : ℕ) :
    checkStages v (resnetStages expansion n1 n2 n3 n4 [false, false, false]) =
      Except.ok () := by
  refine checkStages_of_ok v _ fun sp hsp => ?_
  simp only [resnetStages, makeLayerSpec, List.getD, List.get?, List.mem_cons,
    List.not_mem_nil, or_false, Bool.false_eq_true, if_false] at hsp
  rcases hsp with h | h | h | h <;> subst h <;>
    exact makeLayerOk_of_ok v _ (blockInitOk_one v) (blockInitOk_one v)

/-- Reduction of the constructor on an accepted flag list whose stages all
build. -/
theorem ResNet_init_ok_of (block : BlockVariant) (n1 n2 n3 n4 : ℕ) (rest : List ℕ)
    (ic : ℕ) (rswd0 : Option (List Bool)) (l : List Bool)
    (hget : rswd0.getD [false, false, false] = l) (hlen : l.length = 3)
    (hchk : checkStages block (resnetStages block.expansion n1 n2 n3 n4 l) =
      Except.ok ()) :
    ResNet_init block (n1 :: n2 :: n3 :: n4 :: rest) ic rswd0 =
      Except.ok { expansion := block.expansion, in_channel := ic,
                  stages := resnetStages block.expansion n1 n2 n3 n4 l,
                  rep_dim := 512 * block.expansion } := by
  simp only [ResNet_init, hget]
  rw [if_neg (by simp [hlen])]
  rw [hchk]

/-- C6 (counterexample): the dilation-flag list `[True, False, False]` has
length 3, yet constructing the 18-layer BasicBlock backbone with it raises
torchvision's NotImplementedError: `_make_layer(128, 2, stride=2,
dilate=True)` sets the dilation to 2 and builds the stage's second BasicBlock
with it, so a length-3 list does not guarantee that construction proceeds. -/
theorem C6_counterexample :
    ([true, false, false] : List Bool).length = 3 ∧
      ResNet_init BlockVariant.basic [2, 2, 2, 2] 3 (some [true, false, false]) =
        Except.error "NotImplementedError: Dilation > 1 not supported in BasicBlock" :=
  ⟨rfl, rfl⟩

/-- C6 (amended): a dilation-flag list whose length is not 3 fails with the
configuration ValueError, raised by the check that precedes every layer- and
parameter-building statement of the constructor, for either block variant;
with a length-3 list or none the flag check passes and construction proceeds
whenever the block variant supports the resulting dilations: always for
Bottleneck, and for BasicBlock when no flag is set (the all-false list or
none), a set flag building a BasicBlock with dilation above 1 and raising
NotImplementedError. -/
theorem C6_dilation_flag_check (block : BlockVariant) (n1 n2 n3 n4 : ℕ)
    (rest : List ℕ) (ic : ℕ) :
    (∀ l : List Bool, l.length ≠ 3 →
      ResNet_init block (n1 :: n2 :: n3 :: n4 :: rest) ic (some l) =
        Except.error "replace_stride_with_dilation should be None or a 3-element tuple") ∧
    (∀ l : List Bool, l.length = 3 →
      ∃ M, ResNet_init BlockVariant.bottleneck (n1 :: n2 :: n3 :: n4 :: rest) ic (some l) =
        Except.ok M) ∧
    (∃ M, ResNet_init block (n1 :: n2 :: n3 :: n4 :: rest) ic none = Except.ok M) ∧
    (∃ M, ResNet_init block (n1 :: n2 :: n3 :: n4 :: rest) ic (some [false, false, false]) =
      Except.ok M) := by
  refine ⟨fun l hl => ?_, fun l hl => ?_, ?_, ?_⟩
  · unfold ResNet_init
    rw [show (some l).getD [false, false, false] = l from rfl, if_pos hl]
  · exact ⟨_, ResNet_init_ok_of BlockVariant.bottleneck n1 n2 n3 n4 rest ic (some l) l
      rfl hl (checkStages_bottleneck _)⟩
  · exact ⟨_, ResNet_init_ok_of block n1 n2 n3 n4 rest ic none [false, false, false]
      rfl rfl (checkStages_no_dilation block _ n1 n2 n3 n4)⟩
  · exact ⟨_, ResNet_init_ok_of block n1 n2 n3 n4 rest ic (some [false, false, false])
      [false, false, false] rfl rfl (checkStages_no_dilation block _ n1 n2 n3 n4)⟩

/-- Witness for C6 at flag lists of length 2 and 4 (errors), a Bottleneck
backbone with a set flag, and a BasicBlock backbone with no flag list. -/
theorem C6_dilation_flag_check_witness :
    ResNet_init BlockVariant.basic [2, 2, 2, 2] 3 (some [false, true]) =
        Except.error "replace_stride_with_dilation should be None or a 3-element tuple" ∧
      ResNet_init BlockVariant.basic [2, 2, 2, 2] 3 (some [false, false, true, true]) =
        Except.error "replace_stride_with_dilation should be None or a 3-element tuple" ∧
      (∃ M, ResNet_init BlockVariant.bottleneck [2, 2, 2, 2] 3 (some [true, false, false]) =
        Except.ok M) ∧
      ∃ M, ResNet_init BlockVariant.basic [2, 2, 2, 2] 3 none = Except.ok M :=
  ⟨(C6_dilation_flag_check BlockVariant.basic 2 2 2 2 [] 3).1 _ (by decide),
    (C6_dilation_flag_check BlockVariant.basic 2 2 2 2 [] 3).1 _ (by decide),
    (C6_dilation_flag_check BlockVariant.basic 2 2 2 2 [] 3).2.1 _ (by decide),
    (C6_dilation_flag_check BlockVariant.basic 2 2 2 2 [] 3).2.2.2⟩

/-- C7 (confirmed): `get_resnet_cifar` on any name outside the three known
keys raises a lookup error whose message names the offending key, and on
"ResNet18" returns a backbone with stage block counts `[2, 2, 2, 2]`,
expansion factor 1, hence feature length `rep_dim = 512`. -/
theorem C7_selector (name : String)
    (h : name ∉ ["ResNet18", "ResNet34", "ResNet50"]) :
    get_resnet_cifar name = Except.error (name ++ " is not a valid ResNet version") ∧
      ∃ M, get_resnet_cifar "ResNet18" = Except.ok M ∧
        M.stages.map StageSpec.blocks = [2, 2, 2, 2] ∧
        M.expansion = basicBlockExpansion ∧ M.expansion = 1 ∧ M.rep_dim = 512 := by
  simp only [List.mem_cons, List.not_mem_nil, or_false, not_or] at h
  obtain ⟨h18, h34, h50⟩ := h
  refine ⟨?_, ⟨_, rfl, rfl, rfl, rfl, rfl⟩⟩
  unfold get_resnet_cifar
  rw [if_neg h18, if_neg h34, if_neg h50]

/-- Witness for C7 at the name "ResNet99". -/
theorem C7_selector_witness :
    get_resnet_cifar "ResNet99" =
      Except.error ("ResNet99" ++ " is not a valid ResNet version") :=
  (C7_selector "ResNet99" (by decide)).1

/-- Channel chaining of a stage list: each stage's wired input channel count
equals the channel count produced before it.  `ResNet.__init__` establishes
this by construction through `self.inplanes`. -/
def stagesChained (expansion : ℕ) : ℕ → List StageSpec → Prop
  | _, [] => True
  | c, sp :: rest => sp.inplanes = c ∧ stagesChained expansion (sp.planes * expansion) rest

/-- Channel count produced by a chained stage list. -/
def stagesOut (expansion : ℕ) : ℕ → List StageSpec → ℕ
  | c, [] => c
  | _, sp :: rest => stagesOut expansion (sp.planes * expansion) rest

/-- A chained stage list maps positive spatial sizes to positive spatial
sizes and produces its chained channel count. -/
theorem foldlM_stages (expansion : ℕ) (specs : List StageSpec) :
    ∀ c h w : ℕ, stagesChained expansion c specs → 1 ≤ h → 1 ≤ w →
      ∃ h2 w2, List.foldlM (fun s sp => stageShape expansion sp s) (c, h, w) specs =
          some (stagesOut expansion c specs, h2, w2) ∧ 1 ≤ h2 ∧ 1 ≤ w2 := by
  induction specs with
  | nil =>
      intro c h w _ hh hw
      exact ⟨h, w, rfl, hh, hw⟩
  | cons sp rest ih =>
      intro c h w hch hh hw
      obtain ⟨hc, hrest⟩ := hch
      subst hc
      simp only [List.foldlM_cons]
      rw [stageShape_eq expansion sp h w hh hw]
      obtain ⟨h2, w2, hf, h1, w1⟩ := ih (sp.planes * expansion) _ _ hrest
        (Nat.le_add_left 1 _) (Nat.le_add_left 1 _)
      exact ⟨h2, w2, hf, h1, w1⟩

/-- The stage list built by the constructor is channel-chained from the
stem's 64 output channels. -/
theorem resnetStages_chained (expansion n1 n2 n3 n4 : ℕ) (rswd : List Bool) :
    stagesChained expansion 64 (resnetStages expansion n1 n2 n3 n4 rswd) := by
  simp [resnetStages, makeLayerSpec, stagesChained]

/-- The stage list built by the constructor produces `512 * expansion`
channels. -/
theorem resnetStages_out (expansion n1 n2 n3 n4 : ℕ) (rswd : List Bool) :
    stagesOut expansion 64 (resnetStages expansion n1 n2 n3 n4 rswd) = 512 * expansion := by
  simp [resnetStages, makeLayerSpec, stagesOut]

/-- C8 (confirmed): for every backbone the constructor accepts — any block
expansion factor, any stage block counts, any accepted dilation flags — and
every input batch of shape `(N, c, h, w)` with matching channels and positive
spatial extent, `ResNet.forward` produces a feature batch of shape
`(N, 512 * expansion)`. -/
theorem C8_forward_shape (block : BlockVariant) (n1 n2 n3 n4 : ℕ) (rest : List ℕ)
    (ic : ℕ) (flags : Option (List Bool)) (M : ResNetModel)
    (hM : ResNet_init block (n1 :: n2 :: n3 :: n4 :: rest) ic flags = Except.ok M)
    (N c h w : ℕ) (hc : c = ic) (hh : 1 ≤ h) (hw : 1 ≤ w) :
    resnet_forward_shape M N c h w = some (N, 512 * block.expansion) := by
  subst hc
  simp only [ResNet_init] at hM
  split at hM
  · exact Except.noConfusion hM
  · split at hM
    · exact Except.noConfusion hM
    · injection hM with hM
      subst hM
      unfold resnet_forward_shape
      rw [if_pos rfl]
      rw [convOutDim_3x3 1 1 h hh, convOutDim_3x3 1 1 w hw,
        show (h - 1) / 1 + 1 = h from by omega, show (w - 1) / 1 + 1 = w from by omega]
      simp only [Option.bind_eq_bind, Option.some_bind]
      obtain ⟨h2, w2, hf, hh2, hw2⟩ := foldlM_stages block.expansion
        (resnetStages block.expansion n1 n2 n3 n4 (flags.getD [false, false, false]))
        64 h w (resnetStages_chained block.expansion n1 n2 n3 n4 _) hh hw
      rw [hf]
      simp only [Option.some_bind]
      rw [if_pos ⟨hh2, hw2⟩, resnetStages_out]

/-- Witness for C8: the ResNet18 configuration on a batch of 4 RGB 32x32
images yields features of shape `(4, 512)`. -/
theorem C8_forward_shape_witness :
    ∃ M, ResNet_init BlockVariant.basic [2, 2, 2, 2] 3 none = Except.ok M ∧
      resnet_forward_shape M 4 3 32 32 = some (4, 512 * BlockVariant.basic.expansion) :=
  ⟨_, rfl, C8_forward_shape BlockVariant.basic 2 2 2 2 [] 3 none _ rfl 4 3 32 32 rfl
    (by norm_num) (by norm_num)⟩

/- ### Encoder: the L2 normalization wrapper -/

/-- Default `eps` of `torch.nn.functional.normalize`. -/
noncomputable def normalize_eps : ℝ := 1 / 10 ^ 12

/-- L2 norm of the first `D` entries of a row. -/
noncomputable def l2norm (D : ℕ) (v : ℕ → ℝ) : ℝ :=
  Real.sqrt (∑ j in Finset.range D, v j ^ 2)

/-- Line 155, `F.normalize(f, dim=1)` on one feature row of length `D`: by
the documented torch semantics, `v / max(norm(v, 2), eps)`. -/
noncomputable def normalize_row (D : ℕ) (v : ℕ → ℝ) (j : ℕ) : ℝ :=
  v j / max (l2norm D v) normalize_eps

/-- Lines 153-156, `encoder.forward`: the wrapped resnet's feature batch with
each row L2-normalized; `D` is the feature length of the wrapped backbone. -/
noncomputable def encoder_forward (I : Type) (D : ℕ) (resnet : I → ℕ → ℕ → ℝ)
    (x : I) (i j : ℕ) : ℝ :=
  normalize_row D (resnet x i) j

/-- IEEE view of the row division of line 155, making finiteness and
NaN-freedom expressible: the denominator `max(norm, eps)` is a finite real
and the division is an IEEE division. -/
noncomputable def encoder_forward_fv (I : Type) (D : ℕ) (resnet : I → ℕ → ℕ → ℝ)
    (x : I) (i j : ℕ) : FV :=
  FV.div (FV.r (resnet x i j)) (FV.r (max (l2norm D (resnet x i)) normalize_eps))

/-- The norm clamp `eps` is positive. -/
theorem normalize_eps_pos : (0 : ℝ) < normalize_eps := by norm_num [normalize_eps]

/-- An all-zero feature row has L2 norm 0. -/
theorem l2norm_zero_row (I : Type) (D : ℕ) (resnet : I → ℕ → ℕ → ℝ) (x : I) (i : ℕ)
    (hz : ∀ k, resnet x i k = 0) : l2norm D (resnet x i) = 0 := by
  unfold l2norm
  rw [show ∑ k in Finset.range D, resnet x i k ^ 2 = 0 from
    Finset.sum_eq_zero fun k _ => by rw [hz k]; ring]
  exact Real.sqrt_zero

/-- On an all-zero feature row the IEEE normalization divides 0 by the finite
clamp `eps` and yields the finite value 0, never NaN. -/
theorem encoder_forward_fv_zero_row (I : Type) (D : ℕ) (resnet : I → ℕ → ℕ → ℝ)
    (x : I) (i : ℕ) (hz : ∀ k, resnet x i k = 0) (j : ℕ) :
    encoder_forward_fv I D resnet x i j = FV.r 0 := by
  unfold encoder_forward_fv
  rw [l2norm_zero_row I D resnet x i hz, max_eq_right (le_of_lt normalize_eps_pos), hz j]
  simp [FV.div, ne_of_gt normalize_eps_pos]

/-- On an all-zero feature row the real-valued normalization yields 0. -/
theorem encoder_forward_zero_row (I : Type) (D : ℕ) (resnet : I → ℕ → ℕ → ℝ)
    (x : I) (i : ℕ) (hz : ∀ k, resnet x i k = 0) (j : ℕ) :
    encoder_forward I D resnet x i j = 0 := by
  unfold encoder_forward normalize_row
  rw [l2norm_zero_row I D resnet x i hz, max_eq_right (le_of_lt normalize_eps_pos), hz j]
  exact zero_div _

/- ### Claims C9-C10 -/

/-- C9 (amended): for every feature row whose L2 norm is at least the torch
clamp `eps = 1e-12`, the encoder's output row has L2 norm exactly 1. -/
theorem C9_unit_norm (I : Type) (D : ℕ) (resnet : I → ℕ → ℕ → ℝ) (x : I) (i : ℕ)
    (h : normalize_eps ≤ l2norm D (resnet x i)) :
    l2norm D (encoder_forward I D resnet x i) = 1 := by
  have hnn : 0 ≤ ∑ k in Finset.range D, resnet x i k ^ 2 :=
    Finset.sum_nonneg fun k _ => sq_nonneg _
  have hsq : normalize_eps ≤ Real.sqrt (∑ k in Finset.range D, resnet x i k ^ 2) := h
  have hspos : 0 < Real.sqrt (∑ k in Finset.range D, resnet x i k ^ 2) :=
    lt_of_lt_of_le normalize_eps_pos hsq
  have hSpos : 0 < ∑ k in Finset.range D, resnet x i k ^ 2 := Real.sqrt_pos.mp hspos
  show Real.sqrt (∑ j in Finset.range D,
      (resnet x i j /
        max (Real.sqrt (∑ k in Finset.range D, resnet x i k ^ 2)) normalize_eps) ^ 2) = 1
  rw [max_eq_left hsq]
  have hone : ∑ j in Finset.range D,
      (resnet x i j / Real.sqrt (∑ k in Finset.range D, resnet x i k ^ 2)) ^ 2 = 1 := by
    calc ∑ j in Finset.range D,
        (resnet x i j / Real.sqrt (∑ k in Finset.range D, resnet x i k ^ 2)) ^ 2
        = ∑ j in Finset.range D,
            resnet x i j ^ 2 / Real.sqrt (∑ k in Finset.range D, resnet x i k ^ 2) ^ 2 :=
          Finset.sum_congr rfl fun j _ => div_pow _ _ _
      _ = (∑ j in Finset.range D, resnet x i j ^ 2) /
            (∑ k in Finset.range D, resnet x i k ^ 2) := by
          rw [← Finset.sum_div, Real.sq_sqrt hnn]
      _ = 1 := div_self (ne_of_gt hSpos)
  rw [hone, Real.sqrt_one]

/-- Witness for C9's amended theorem on the feature row `(3, 4)`. -/
theorem C9_unit_norm_witness :
    normalize_eps ≤ l2norm 2 (fun j => if j = 0 then (3 : ℝ) else 4) ∧
      l2norm 2 (encoder_forward Unit 2 (fun _ _ j => if j = 0 then (3 : ℝ) else 4) () 0) = 1 := by
  have h5 : l2norm 2 (fun j => if j = 0 then (3 : ℝ) else 4) = 5 := by
    unfold l2norm
    rw [show ∑ j in Finset.range 2, (if j = 0 then (3 : ℝ) else 4) ^ 2 = 25 by
      rw [Finset.sum_range_succ, Finset.sum_range_one]; norm_num]
    rw [show (25 : ℝ) = 5 ^ 2 by norm_num]
    exact Real.sqrt_sq (by norm_num)
  have hle : normalize_eps ≤ l2norm 2 (fun j => if j = 0 then (3 : ℝ) else 4) := by
    rw [h5]; norm_num [normalize_eps]
  exact ⟨hle, C9_unit_norm Unit 2 (fun _ _ j => if j = 0 then (3 : ℝ) else 4) () 0 hle⟩

/-- C9 (counterexample): a nonzero feature row below the clamp — the constant
row `1e-15` of length 1 — is non-degenerate in the claim's sense, yet the
encoder divides it by `eps = 1e-12` and the output row has L2 norm `1e-3`,
not 1 (nor within any reasonable tolerance of 1). -/
theorem C9_counterexample :
    (fun _ : ℕ => (1 : ℝ) / 10 ^ 15) 0 ≠ 0 ∧
      l2norm 1 (encoder_forward Unit 1 (fun _ _ _ => (1 : ℝ) / 10 ^ 15) () 0) = 1 / 1000 ∧
      (1 : ℝ) / 1000 ≠ 1 := by
  refine ⟨by norm_num, ?_, by norm_num⟩
  have hsmall : l2norm 1 (fun _ : ℕ => (1 : ℝ) / 10 ^ 15) = 1 / 10 ^ 15 := by
    unfold l2norm
    rw [Finset.sum_range_one]
    exact Real.sqrt_sq (by norm_num)
  have hout : ∀ j, encoder_forward Unit 1 (fun _ _ _ => (1 : ℝ) / 10 ^ 15) () 0 j = 1 / 1000 := by
    intro j
    show normalize_row 1 (fun _ : ℕ => (1 : ℝ) / 10 ^ 15) j = 1 / 1000
    unfold normalize_row
    rw [hsmall, max_eq_right (by norm_num [normalize_eps])]
    norm_num [normalize_eps]
  unfold l2norm
  rw [Finset.sum_range_one, hout 0]
  exact Real.sqrt_sq (by norm_num)

/-- C10 (counterexample): on an all-zero feature row the encoder returns the
finite value 0 in every position, not a NaN: `F.normalize` clamps the zero
norm to `eps = 1e-12`, so the division is `0 / 1e-12 = 0`. -/
theorem C10_counterexample :
    encoder_forward_fv Unit 2 (fun _ _ _ => 0) () 0 0 = FV.r 0 ∧ FV.r 0 ≠ FV.nan :=
  ⟨encoder_forward_fv_zero_row Unit 2 (fun _ _ _ => 0) () 0 (fun _ => rfl) 0, nofun⟩

/-- C10 (amended): a zero feature vector does not make the normalization
undefined: because `F.normalize` divides by `max(norm, eps)` with
`eps = 1e-12 > 0`, the output row for a zero feature vector is the all-zero
row — finite everywhere (never NaN), though of norm 0 rather than 1. -/
theorem C10_zero_vector (I : Type) (D : ℕ) (resnet : I → ℕ → ℕ → ℝ) (x : I) (i : ℕ)
    (hz : ∀ k, resnet x i k = 0) (j : ℕ) :
    encoder_forward_fv I D resnet x i j = FV.r 0 ∧ encoder_forward I D resnet x i j = 0 :=
  ⟨encoder_forward_fv_zero_row I D resnet x i hz j,
    encoder_forward_zero_row I D resnet x i hz j⟩

/-- Witness for C10's amended theorem. -/
theorem C10_zero_vector_witness :
    encoder_forward_fv Unit 3 (fun _ _ _ => 0) () 1 2 = FV.r 0 ∧
      encoder_forward Unit 3 (fun _ _ _ => 0) () 1 2 = 0 :=
  C10_zero_vector Unit 3 (fun _ _ _ => 0) () 1 (fun _ => rfl) 2
